import Mathlib

/-!
Verification of `email_spoofing_check.py`.

The program is a read-only DNS diagnostic: it queries TXT records for a
domain, classifies its SPF and DMARC policies by substring tests, probes a
fixed list of DKIM selectors, and combines the SPF and DMARC risk levels
into one overall verdict.

Shallow embedding conventions:
- Python strings are Lean `String`s; `str.lower()` is `strLower`
  (ASCII case folding, which agrees with Python on the ASCII record
  grammars involved), `str.startswith` is `strStartsWith`, the `in`
  substring test is `strContains`, and `str.strip()` is `strStrip`.
- The DNS network is a pure environment `DnsEnv : String → LookupOutcome`
  mapping a queried name to what `dns.resolver.resolve(name, "TXT")`
  does: an answer set (each record a list of character-string segments),
  a NoAnswer or NXDOMAIN exception, a Timeout exception, or any other
  exception carrying a message.
- `print(...)` calls are collected as a list of the printed strings, and
  `sys.exit`/fallthrough as a numeric exit code, in `RunResult`.
-/

/-- Risk levels used by the tool: the source stores the Portuguese strings
"Baixo" (low), "Médio" (medium), "Alto" (high); only these three values
ever occur, so they are modelled as an enumeration, rendered back to the
source strings by `Risk.display`. -/
inductive Risk where
  | low
  | medium
  | high
deriving DecidableEq, Repr

/-- The string the source stores and prints for each risk level. -/
def Risk.display : Risk → String
  | .low => "Baixo"
  | .medium => "Médio"
  | .high => "Alto"

/-- Rank of a risk level in the order Low < Medium < High. -/
def Risk.rank : Risk → Nat
  | .low => 0
  | .medium => 1
  | .high => 2

/-- Maximum of two risk levels under the order Low < Medium < High. -/
def Risk.max (a b : Risk) : Risk :=
  if a.rank ≤ b.rank then b else a

/-- ASCII lowercase of a string, modelling `str.lower()` on the ASCII
record data this tool inspects. -/
def strLower (s : String) : String :=
  ⟨s.data.map Char.toLower⟩

/-- Strip leading and trailing whitespace, modelling `str.strip()`. -/
def strStrip (s : String) : String :=
  ⟨((s.data.dropWhile Char.isWhitespace).reverse.dropWhile Char.isWhitespace).reverse⟩

/-- Boolean test that `p` begins `s`, modelling `s.startswith(p)`. -/
def strStartsWith (s p : String) : Bool :=
  decide (p.data <+: s.data)

/-- Boolean substring test, modelling Python `p in s`. -/
def strContains (s p : String) : Bool :=
  decide (p.data <:+: s.data)

/-- Result dictionary of `analyze_spf` / `analyze_dmarc`:
`{"exists": …, "policy": …, "risk": …, "note": …}`. -/
structure PolicyAssessment where
  exists_ : Bool
  policy : Option String
  risk : Risk
  note : String
deriving DecidableEq, Repr

/-- Result dictionary of `detect_dkim`:
`{"exists": …, "selectors": …, "note": …}`. -/
structure DkimAssessment where
  exists_ : Bool
  selectors : List String
  note : String
deriving DecidableEq, Repr

/-- Outcome of one `dns.resolver.resolve(name, "TXT", lifetime=TIMEOUT)`
call: an answer list (each record a list of byte-string segments), one of
the two benign exceptions, a timeout, or any other exception with its
message. -/
inductive LookupOutcome where
  | answers (records : List (List String))
  | noAnswer
  | nxdomain
  | timeout
  | otherError (msg : String)
deriving DecidableEq, Repr

/-- The DNS world a run observes: what resolving each name returns. -/
def DnsEnv : Type := String → LookupOutcome

/-- `query_txt` (source lines 35-46): returns the record strings (each
record's segments joined), `[]` on NoAnswer/NXDOMAIN, the sentinel
`["TIMEOUT"]` on timeout, and `["ERROR: <msg>"]` on any other failure. -/
def query_txt (env : DnsEnv) (name : String) : List String :=
  match env name with
  | .answers records => records.map String.join
  | .noAnswer => []
  | .nxdomain => []
  | .timeout => ["TIMEOUT"]
  | .otherError msg => ["ERROR: " ++ msg]

/-- The filter predicate of source line 49: `r.lower().startswith("v=spf1")`. -/
def isSpfRecord (r : String) : Bool :=
  strStartsWith (strLower r) "v=spf1"

/-- `analyze_spf` (source lines 48-79). -/
def analyze_spf (txt_records : List String) : PolicyAssessment :=
  let spf_records := txt_records.filter isSpfRecord
  match spf_records with
  | [] => { exists_ := false, policy := none, risk := .high, note := "SPF ausente" }
  | r :: _ =>
    let spf := strLower r
    if strContains spf "-all" then
      { exists_ := true, policy := some "-all", risk := .low, note := "SPF presente" }
    else if strContains spf "~all" then
      { exists_ := true, policy := some "~all", risk := .medium, note := "SPF presente" }
    else if strContains spf "+all" || strContains spf " all" then
      { exists_ := true, policy := some "+all", risk := .high, note := "SPF presente" }
    else
      { exists_ := true, policy := some "sem all", risk := .medium, note := "SPF presente" }

/-- The filter predicate of source line 83: `r.lower().startswith("v=dmarc1")`. -/
def isDmarcRecord (r : String) : Bool :=
  strStartsWith (strLower r) "v=dmarc1"

/-- `analyze_dmarc` (source lines 81-110): queries `_dmarc.<domain>` and
classifies the first `v=dmarc1` record. -/
def analyze_dmarc (env : DnsEnv) (domain : String) : PolicyAssessment :=
  let dmarc_records := (query_txt env ("_dmarc." ++ domain)).filter isDmarcRecord
  match dmarc_records with
  | [] => { exists_ := false, policy := none, risk := .high, note := "DMARC ausente" }
  | r :: _ =>
    let dmarc := strLower r
    if strContains dmarc "p=reject" then
      { exists_ := true, policy := some "reject", risk := .low, note := "DMARC presente" }
    else if strContains dmarc "p=quarantine" then
      { exists_ := true, policy := some "quarantine", risk := .medium, note := "DMARC presente" }
    else
      { exists_ := true, policy := some "none", risk := .high, note := "DMARC presente" }

/-- `COMMON_DKIM_SELECTORS` (source lines 26-33). -/
def COMMON_DKIM_SELECTORS : List String :=
  ["default", "selector1", "selector2", "google", "mail", "smtp"]

/-- The match test of source line 119: `r.lower().startswith("v=dkim1")`. -/
def isDkimRecord (r : String) : Bool :=
  strStartsWith (strLower r) "v=dkim1"

/-- `detect_dkim` (source lines 112-133): for each selector in order,
queries `<selector>._domainkey.<domain>` and appends the selector to
`found` once per returned record matching `isDkimRecord`. -/
def detect_dkim (env : DnsEnv) (domain : String) : DkimAssessment :=
  let found := COMMON_DKIM_SELECTORS.foldl
    (fun acc selector =>
      (query_txt env (selector ++ "._domainkey." ++ domain)).foldl
        (fun acc2 r => if isDkimRecord r then acc2 ++ [selector] else acc2) acc)
    []
  if found = [] then
    { exists_ := false, selectors := [], note := "DKIM não identificado (selectors comuns)" }
  else
    { exists_ := true, selectors := found, note := "DKIM identificado (parcial)" }

/-- `classify_overall` (source lines 135-145). It takes only the SPF and
DMARC assessments; the DKIM result is not an input. -/
def classify_overall (spf dmarc : PolicyAssessment) : Risk :=
  if spf.exists_ = false ∧ dmarc.exists_ = false then .high
  else if spf.risk = .high ∨ dmarc.risk = .high then .high
  else if spf.risk = .medium ∨ dmarc.risk = .medium then .medium
  else .low

/-- How a Python f-string renders a `bool`. -/
def pyBool (b : Bool) : String :=
  if b then "True" else "False"

/-- How a Python f-string renders an optional string (`None` or the string). -/
def pyOptStr : Option String → String
  | none => "None"
  | some s => s

/-- The report printed by `main` on the success path (source lines
154-188), one list element per `print` call, keeping the embedded
newline characters of the f-strings. -/
def report_lines (domain : String) (spf dmarc : PolicyAssessment)
    (dkim : DkimAssessment) (overall : Risk) : List String :=
  ["\n[+] Analisando domínio: " ++ domain ++ "\n",
   "=== RESULTADO ===\n",
   "[SPF]",
   "  Existe      : " ++ pyBool spf.exists_,
   "  Política    : " ++ pyOptStr spf.policy,
   "  Risco       : " ++ spf.risk.display,
   "  Observação  : " ++ spf.note ++ "\n",
   "[DMARC]",
   "  Existe      : " ++ pyBool dmarc.exists_,
   "  Política    : " ++ pyOptStr dmarc.policy,
   "  Risco       : " ++ dmarc.risk.display,
   "  Observação  : " ++ dmarc.note ++ "\n",
   "[DKIM]",
   "  Existe      : " ++ pyBool dkim.exists_,
   "  Selectors   : " ++ (if dkim.selectors = [] then "Nenhum"
                          else String.intercalate ", " dkim.selectors),
   "  Observação  : " ++ dkim.note ++ "\n",
   "[CLASSIFICAÇÃO FINAL]",
   "  Risco Geral : " ++ overall.display ++ "\n",
   if overall = Risk.low then "[+] Configuração adequada contra spoofing."
   else "[!] Possível cenário de Email Spoofing identificado."]

/-- Observable outcome of one program run: exit status, the strings
passed to `print` in order, and the DNS names resolved in order. -/
structure RunResult where
  exitCode : Nat
  output : List String
  queries : List String
deriving DecidableEq, Repr

/-- `main` (source lines 147-188) on an argument vector (`argv.headD ""`
is `sys.argv[0]`). With a wrong argument count it prints the usage line
and exits 1 having issued no DNS query. Otherwise it normalizes the
argument by `strip().lower()`, runs the four stages, prints the report,
and falls through with exit status 0. The `queries` field records the
DNS names the called stages resolve, in call order: the bare domain
(line 156 via line 37), `_dmarc.<domain>` (line 82), and the six
`<selector>._domainkey.<domain>` names (line 116). -/
def main_run (env : DnsEnv) (argv : List String) : RunResult :=
  if argv.length ≠ 2 then
    { exitCode := 1,
      output := ["Uso: " ++ argv.headD "" ++ " dominio.com"],
      queries := [] }
  else
    let domain := strLower (strStrip (argv.getD 1 ""))
    let txt_records := query_txt env domain
    let spf_result := analyze_spf txt_records
    let dmarc_result := analyze_dmarc env domain
    let dkim_result := detect_dkim env domain
    let overall_risk := classify_overall spf_result dmarc_result
    { exitCode := 0,
      output := report_lines domain spf_result dmarc_result dkim_result overall_risk,
      queries := domain :: ("_dmarc." ++ domain) ::
        COMMON_DKIM_SELECTORS.map (fun s => s ++ "._domainkey." ++ domain) }

/-- Claim C1, written from the claim text rather than the source: filter
for records whose lowercase form starts with `v=spf1`; with no match the
result is (exists false, policy none, risk High); otherwise the first
match (no reordering) is classified by substring presence with
first-match-wins precedence. The source is Portuguese, so the claim
label "no all qualifier" is rendered by its source string "sem all". -/
def analyzeSPF_claim (txtRecords : List String) : Bool × Option String × Risk :=
  match (txtRecords.filter (fun r => strStartsWith (strLower r) "v=spf1")).head? with
  | none => (false, none, .high)
  | some first =>
    let s := strLower first
    if strContains s "-all" then (true, some "-all", .low)
    else if strContains s "~all" then (true, some "~all", .medium)
    else if strContains s "+all" || strContains s " all" then (true, some "+all", .high)
    else (true, some "sem all", .medium)

/-- Claim C2, written from the claim text: query TXT at `_dmarc.<domain>`,
filter for records starting case-insensitively with `v=dmarc1`; none gives
(exists false, policy none, risk High); otherwise the first match gives
risk Low on substring `p=reject`, else risk Medium on `p=quarantine`,
else policy "none" and risk High. -/
def analyzeDMARC_claim (env : DnsEnv) (domain : String) : Bool × Option String × Risk :=
  match ((query_txt env ("_dmarc." ++ domain)).filter
      (fun r => strStartsWith (strLower r) "v=dmarc1")).head? with
  | none => (false, none, .high)
  | some first =>
    let s := strLower first
    if strContains s "p=reject" then (true, some "reject", .low)
    else if strContains s "p=quarantine" then (true, some "quarantine", .medium)
    else (true, some "none", .high)

/-- Claim C3, written from the spec decision table, first matching rule
wins: (1) neither exists, High; (2) either risk High, High; (3) either
risk Medium, Medium; (4) otherwise Low. -/
def classifyOverall_claim (spf dmarc : PolicyAssessment) : Risk :=
  if ¬spf.exists_ ∧ ¬dmarc.exists_ then .high
  else if spf.risk = .high ∨ dmarc.risk = .high then .high
  else if spf.risk = .medium ∨ dmarc.risk = .medium then .medium
  else .low

/-- Amended claim C4, written from the amended claim text: for each of the
six selectors in order, the result list carries one copy of the selector
name per returned record starting case-insensitively with `v=dkim1`, so a
selector with several matching records appears several times; no match at
all gives (exists false, selectors []). -/
def detectDKIM_amended (env : DnsEnv) (domain : String) : DkimAssessment :=
  let found := (COMMON_DKIM_SELECTORS.map (fun selector =>
      List.replicate
        ((query_txt env (selector ++ "._domainkey." ++ domain)).filter isDkimRecord).length
        selector)).flatten
  if found = [] then
    { exists_ := false, selectors := [], note := "DKIM não identificado (selectors comuns)" }
  else
    { exists_ := true, selectors := found, note := "DKIM identificado (parcial)" }

/-- A DNS world where the `default` DKIM selector of `example.com` has two
TXT records, both valid DKIM keys, and every other name does not exist. -/
def envDupDkim : DnsEnv := fun name =>
  if name = "default._domainkey.example.com" then
    .answers [["v=DKIM1; k=rsa; p=AAAA"], ["v=dkim1; k=rsa; p=BBBB"]]
  else .nxdomain

/-- A DNS world exercising each `query_txt` outcome on its own name. -/
def envOutcomes : DnsEnv := fun name =>
  if name = "answers.test" then .answers [["v=spf1 ", "-all"]]
  else if name = "noanswer.test" then .noAnswer
  else if name = "timeout.test" then .timeout
  else if name = "error.test" then .otherError "the failure reason"
  else .nxdomain

/-- A DNS world where every single lookup times out. -/
def envAllTimeout : DnsEnv := fun _ => .timeout

/-- A DNS world where no name exists at all. -/
def envNoRecords : DnsEnv := fun _ => .nxdomain

/-- C1: analyze_spf is exactly the total mapping described by the claim:
no record with lowercase form starting in v=spf1 gives (exists false,
policy none, risk High); otherwise the first matching record in resolver
order is classified by substring presence with first-match-wins
precedence -all/Low, ~all/Medium, +all-or-space-all/High, else
"sem all"/Medium, with exists true. -/
theorem analyze_spf_matches_claim (rs : List String) :
    ((analyze_spf rs).exists_, (analyze_spf rs).policy, (analyze_spf rs).risk)
      = analyzeSPF_claim rs := by
  have hf : rs.filter (fun r => strStartsWith (strLower r) "v=spf1")
      = rs.filter isSpfRecord := rfl
  unfold analyze_spf analyzeSPF_claim
  rw [hf]
  cases h : rs.filter isSpfRecord with
  | nil => rfl
  | cons r t =>
    by_cases h1 : strContains (strLower r) "-all" = true
    · simp [h1]
    · by_cases h2 : strContains (strLower r) "~all" = true
      · simp [h1, h2]
      · by_cases h3 : (strContains (strLower r) "+all" || strContains (strLower r) " all") = true
        · simp [h1, h2, h3]
        · simp [h1, h2, h3]

/-- C2: analyze_dmarc is exactly the mapping described by the claim:
query TXT at the name _dmarc.<domain>, filter for records starting
case-insensitively with v=dmarc1; none gives (exists false, policy none,
risk High); otherwise the first match gives risk Low on p=reject, else
risk Medium on p=quarantine, else policy "none" with risk High. -/
theorem analyze_dmarc_matches_claim (env : DnsEnv) (domain : String) :
    ((analyze_dmarc env domain).exists_, (analyze_dmarc env domain).policy,
      (analyze_dmarc env domain).risk)
      = analyzeDMARC_claim env domain := by
  have hf : (query_txt env ("_dmarc." ++ domain)).filter
        (fun r => strStartsWith (strLower r) "v=dmarc1")
      = (query_txt env ("_dmarc." ++ domain)).filter isDmarcRecord := rfl
  unfold analyze_dmarc analyzeDMARC_claim
  rw [hf]
  cases h : (query_txt env ("_dmarc." ++ domain)).filter isDmarcRecord with
  | nil => rfl
  | cons r t =>
    by_cases h1 : strContains (strLower r) "p=reject" = true
    · simp [h1]
    · by_cases h2 : strContains (strLower r) "p=quarantine" = true
      · simp [h1, h2]
      · simp [h1, h2]

/-- C3: classify_overall implements the spec decision table with
first-matching-rule-wins order: neither exists gives High, then either
risk High gives High, then either risk Medium gives Medium, else Low.
The DKIM result is not an argument of classify_overall, so it cannot
enter this computation. -/
theorem classify_overall_matches_table (spf dmarc : PolicyAssessment) :
    classify_overall spf dmarc = classifyOverall_claim spf dmarc := by
  obtain ⟨e1, p1, r1, n1⟩ := spf
  obtain ⟨e2, p2, r2, n2⟩ := dmarc
  cases e1 <;> cases e2 <;> cases r1 <;> cases r2 <;> rfl

/-- C7: the space-all check is a plain substring test. The record
"v=spf1 ip4:203.0.113.5 allxyz" starts with v=spf1, contains none of
-all, ~all, +all, carries no standalone "all" token (its space-split
tokens are v=spf1, ip4:203.0.113.5, allxyz), yet contains the literal
substring " all", so analyze_spf classifies it policy +all, risk High. -/
theorem spf_space_all_false_positive :
    strStartsWith (strLower "v=spf1 ip4:203.0.113.5 allxyz") "v=spf1" = true ∧
    strContains (strLower "v=spf1 ip4:203.0.113.5 allxyz") "-all" = false ∧
    strContains (strLower "v=spf1 ip4:203.0.113.5 allxyz") "~all" = false ∧
    strContains (strLower "v=spf1 ip4:203.0.113.5 allxyz") "+all" = false ∧
    strContains (strLower "v=spf1 ip4:203.0.113.5 allxyz") " all" = true ∧
    ((("v=spf1 ip4:203.0.113.5 allxyz").data.splitOn ' ').map String.mk).contains "all" = false ∧
    analyze_spf ["v=spf1 ip4:203.0.113.5 allxyz"]
      = { exists_ := true, policy := some "+all", risk := .high, note := "SPF presente" } := by
  decide

theorem foldl_filter_replicate (p : String → Bool) (sel : String) :
    ∀ (rs : List String) (acc : List String),
      rs.foldl (fun acc2 r => if p r then acc2 ++ [sel] else acc2) acc
        = acc ++ List.replicate (rs.filter p).length sel := by
  intro rs
  induction rs with
  | nil => intro acc; simp
  | cons r t ih =>
    intro acc
    by_cases h : p r = true
    · simp [h, ih, List.replicate_succ]
    · simp [h, ih]

theorem foldl_ext_eq (f g : List String → String → List String)
    (h : ∀ acc sel, f acc sel = g acc sel) :
    ∀ (l : List String) (acc : List String), l.foldl f acc = l.foldl g acc := by
  intro l
  induction l with
  | nil => intro acc; rfl
  | cons s t ih => intro acc; rw [List.foldl_cons, List.foldl_cons, h, ih]

theorem foldl_append_flatten (g : String → List String) :
    ∀ (sels : List String) (acc : List String),
      sels.foldl (fun acc sel => acc ++ g sel) acc = acc ++ (sels.map g).flatten := by
  intro sels
  induction sels with
  | nil => intro acc; simp
  | cons s t ih => intro acc; simp [ih]

/-- Counterexample to C4 as stated: in `envDupDkim` the selector
`default` has two records that both start with v=dkim1, and the
resulting selector list is ["default", "default"], which has a
duplicate, contradicting the claim that duplicates cannot occur. -/
theorem dkim_duplicate_counterexample :
    (detect_dkim envDupDkim "example.com").selectors = ["default", "default"] ∧
    ¬ (detect_dkim envDupDkim "example.com").selectors.Nodup := by
  constructor
  · decide
  · decide

/-- Amended C4: detect_dkim queries the six fixed selectors in order and
appends a selector once per returned record starting case-insensitively
with v=dkim1, so a selector appears as many times as it has matching
records (duplicates occur exactly when one selector query returns more
than one matching record); no match at all yields (exists false,
selectors []), otherwise (exists true) with that list. -/
theorem detect_dkim_amended_correct (env : DnsEnv) (domain : String) :
    detect_dkim env domain = detectDKIM_amended env domain := by
  unfold detect_dkim detectDKIM_amended
  rw [foldl_ext_eq _
    (fun acc selector => acc ++
      List.replicate
        ((query_txt env (selector ++ "._domainkey." ++ domain)).filter isDkimRecord).length
        selector)
    (fun acc selector => foldl_filter_replicate isDkimRecord selector _ acc)]
  rw [foldl_append_flatten _ COMMON_DKIM_SELECTORS []]
  rw [List.nil_append]

/-- C5: query_txt is a total mapping on lookup outcomes and never
propagates a resolver failure: a successful answer yields the joined
record strings, NoAnswer and NXDOMAIN yield the empty list (a normal
outcome), a timeout yields the distinguishable sentinel ["TIMEOUT"],
and any other failure yields a sentinel carrying the message,
["ERROR: <msg>"]. The five cases cover every constructor of
LookupOutcome, so no resolver outcome aborts the run. -/
theorem query_txt_never_fails (env : DnsEnv) (name : String) :
    (∀ records, env name = .answers records →
       query_txt env name = records.map String.join) ∧
    (env name = .noAnswer → query_txt env name = []) ∧
    (env name = .nxdomain → query_txt env name = []) ∧
    (env name = .timeout → query_txt env name = ["TIMEOUT"]) ∧
    (∀ msg, env name = .otherError msg →
       query_txt env name = ["ERROR: " ++ msg]) := by
  refine ⟨fun records h => ?_, fun h => ?_, fun h => ?_, fun h => ?_, fun msg h => ?_⟩ <;>
    simp [query_txt, h]

/-- Witness for C5 on `envOutcomes`, one name per outcome class. -/
theorem query_txt_never_fails_witness :
    query_txt envOutcomes "answers.test" = ["v=spf1 -all"] ∧
    query_txt envOutcomes "noanswer.test" = [] ∧
    query_txt envOutcomes "missing.test" = [] ∧
    query_txt envOutcomes "timeout.test" = ["TIMEOUT"] ∧
    query_txt envOutcomes "error.test" = ["ERROR: the failure reason"] := by
  refine ⟨?_, ?_, ?_, ?_, ?_⟩
  · have := (query_txt_never_fails envOutcomes "answers.test").1
      [["v=spf1 ", "-all"]] (by decide)
    exact this.trans (by decide)
  · exact (query_txt_never_fails envOutcomes "noanswer.test").2.1 (by decide)
  · exact (query_txt_never_fails envOutcomes "missing.test").2.2.1 (by decide)
  · exact (query_txt_never_fails envOutcomes "timeout.test").2.2.2.1 (by decide)
  · exact (query_txt_never_fails envOutcomes "error.test").2.2.2.2
      "the failure reason" (by decide)

/-- C6: when every lookup yields the timeout sentinel, analyze_spf and
analyze_dmarc both take their absent branch with risk High, detect_dkim
finds nothing, the overall verdict is High, and a full run is equal,
output shape included, to a run against a DNS world with no records. -/
theorem all_timeout_behavior (env : DnsEnv)
    (h : ∀ name, env name = LookupOutcome.timeout) :
    (∀ domain, analyze_spf (query_txt env domain)
        = { exists_ := false, policy := none, risk := .high, note := "SPF ausente" }) ∧
    (∀ domain, analyze_dmarc env domain
        = { exists_ := false, policy := none, risk := .high, note := "DMARC ausente" }) ∧
    (∀ domain, detect_dkim env domain
        = { exists_ := false, selectors := [],
            note := "DKIM não identificado (selectors comuns)" }) ∧
    (∀ domain, classify_overall (analyze_spf (query_txt env domain))
        (analyze_dmarc env domain) = .high) ∧
    (∀ p domain, main_run env [p, domain] = main_run envNoRecords [p, domain]) := by
  have hq : ∀ n, query_txt env n = ["TIMEOUT"] := fun n => by simp [query_txt, h n]
  have hq0 : ∀ n, query_txt envNoRecords n = [] := fun n => rfl
  have h1 : ∀ d, analyze_spf (query_txt env d)
      = { exists_ := false, policy := none, risk := .high, note := "SPF ausente" } := by
    intro d; rw [hq]; decide
  have h2 : ∀ d, analyze_dmarc env d
      = { exists_ := false, policy := none, risk := .high, note := "DMARC ausente" } := by
    intro d; unfold analyze_dmarc; rw [hq]; decide
  have h3 : ∀ d, detect_dkim env d
      = { exists_ := false, selectors := [],
          note := "DKIM não identificado (selectors comuns)" } := by
    intro d; simp only [detect_dkim, hq]; decide
  have g1 : ∀ d, analyze_spf (query_txt envNoRecords d)
      = { exists_ := false, policy := none, risk := .high, note := "SPF ausente" } := by
    intro d; rw [hq0]; decide
  have g2 : ∀ d, analyze_dmarc envNoRecords d
      = { exists_ := false, policy := none, risk := .high, note := "DMARC ausente" } := by
    intro d; unfold analyze_dmarc; rw [hq0]; decide
  have g3 : ∀ d, detect_dkim envNoRecords d
      = { exists_ := false, selectors := [],
          note := "DKIM não identificado (selectors comuns)" } := by
    intro d; simp only [detect_dkim, hq0]; decide
  refine ⟨h1, h2, h3, fun d => by rw [h1, h2]; decide, fun p d => ?_⟩
  have hlen : ¬(([p, d] : List String).length ≠ 2) := by simp
  unfold main_run
  rw [if_neg hlen, if_neg hlen]
  simp only [h1, h2, h3, g1, g2, g3]

/-- Witness for C6 at the constant-timeout DNS world. -/
theorem all_timeout_behavior_witness :
    analyze_spf (query_txt envAllTimeout "example.com")
      = { exists_ := false, policy := none, risk := .high, note := "SPF ausente" } ∧
    analyze_dmarc envAllTimeout "example.com"
      = { exists_ := false, policy := none, risk := .high, note := "DMARC ausente" } ∧
    detect_dkim envAllTimeout "example.com"
      = { exists_ := false, selectors := [],
          note := "DKIM não identificado (selectors comuns)" } ∧
    main_run envAllTimeout ["prog", "example.com"]
      = main_run envNoRecords ["prog", "example.com"] :=
  ⟨(all_timeout_behavior envAllTimeout (fun _ => rfl)).1 "example.com",
   (all_timeout_behavior envAllTimeout (fun _ => rfl)).2.1 "example.com",
   (all_timeout_behavior envAllTimeout (fun _ => rfl)).2.2.1 "example.com",
   (all_timeout_behavior envAllTimeout (fun _ => rfl)).2.2.2.2 "prog" "example.com"⟩

/-- C8: with argument count different from one positional domain
argument, main prints the usage line and exits 1 without issuing any
DNS query; with exactly one argument it exits 0 having printed the full
19-line report. -/
theorem main_cli_contract (env : DnsEnv) (argv : List String) :
    (argv.length ≠ 2 →
      main_run env argv =
        { exitCode := 1,
          output := ["Uso: " ++ argv.headD "" ++ " dominio.com"],
          queries := [] }) ∧
    (argv.length = 2 →
      (main_run env argv).exitCode = 0 ∧ (main_run env argv).output.length = 19) := by
  constructor
  · intro h
    unfold main_run
    rw [if_pos h]
  · intro h
    have hne : ¬(argv.length ≠ 2) := by simp [h]
    unfold main_run
    rw [if_neg hne]
    exact ⟨rfl, rfl⟩

/-- Witness for C8: zero domain arguments, then exactly one. -/
theorem main_cli_contract_witness :
    main_run envNoRecords ["prog"]
      = { exitCode := 1, output := ["Uso: prog dominio.com"], queries := [] } ∧
    (main_run envNoRecords ["prog", "example.com"]).exitCode = 0 ∧
    (main_run envNoRecords ["prog", "example.com"]).output.length = 19 := by
  refine ⟨?_, ?_⟩
  · exact ((main_cli_contract envNoRecords ["prog"]).1 (by decide)).trans (by decide)
  · exact (main_cli_contract envNoRecords ["prog", "example.com"]).2 (by decide)

/-- C10: main normalizes the domain argument by strip-then-lowercase
before any DNS query, so two runs whose single arguments agree after
that normalization coincide completely: exit code, every DNS name
queried, and the entire printed report. -/
theorem main_domain_normalization (env : DnsEnv) (p a b : String)
    (h : strLower (strStrip a) = strLower (strStrip b)) :
    main_run env [p, a] = main_run env [p, b] := by
  have hlen : ¬(([p, a] : List String).length ≠ 2) := by simp
  have hlen2 : ¬(([p, b] : List String).length ≠ 2) := by simp
  unfold main_run
  rw [if_neg hlen, if_neg hlen2]
  simp only [List.getD_cons_succ, List.getD_cons_zero]
  rw [h]

/-- Witness for C10: same domain up to case and surrounding blanks. -/
theorem main_domain_normalization_witness :
    main_run envNoRecords ["prog", "  ExAmPle.COM "]
      = main_run envNoRecords ["prog", "example.com"] :=
  main_domain_normalization envNoRecords "prog" "  ExAmPle.COM " "example.com" (by decide)

theorem analyze_spf_res (rs : List String) :
    analyze_spf rs
      = { exists_ := false, policy := none, risk := .high, note := "SPF ausente" } ∨
    ∃ pol rk, analyze_spf rs
      = { exists_ := true, policy := some pol, risk := rk, note := "SPF presente" } := by
  unfold analyze_spf
  cases h : rs.filter isSpfRecord with
  | nil => exact Or.inl rfl
  | cons r t =>
    right
    by_cases h1 : strContains (strLower r) "-all" = true
    · exact ⟨"-all", .low, by simp [h1]⟩
    · by_cases h2 : strContains (strLower r) "~all" = true
      · exact ⟨"~all", .medium, by simp [h1, h2]⟩
      · by_cases h3 : (strContains (strLower r) "+all" || strContains (strLower r) " all") = true
        · exact ⟨"+all", .high, by simp [h1, h2, h3]⟩
        · exact ⟨"sem all", .medium, by simp [h1, h2, h3]⟩

theorem analyze_dmarc_res (env : DnsEnv) (domain : String) :
    analyze_dmarc env domain
      = { exists_ := false, policy := none, risk := .high, note := "DMARC ausente" } ∨
    ∃ pol rk, analyze_dmarc env domain
      = { exists_ := true, policy := some pol, risk := rk, note := "DMARC presente" } := by
  unfold analyze_dmarc
  cases h : (query_txt env ("_dmarc." ++ domain)).filter isDmarcRecord with
  | nil => exact Or.inl rfl
  | cons r t =>
    right
    by_cases h1 : strContains (strLower r) "p=reject" = true
    · exact ⟨"reject", .low, by simp [h1]⟩
    · by_cases h2 : strContains (strLower r) "p=quarantine" = true
      · exact ⟨"quarantine", .medium, by simp [h1, h2]⟩
      · exact ⟨"none", .high, by simp [h1, h2]⟩

theorem classify_overall_eq_max (spf dmarc : PolicyAssessment)
    (h1 : spf.exists_ = false → spf.risk = .high)
    (h2 : dmarc.exists_ = false → dmarc.risk = .high) :
    classify_overall spf dmarc = Risk.max spf.risk dmarc.risk := by
  obtain ⟨e1, p1, r1, n1⟩ := spf
  obtain ⟨e2, p2, r2, n2⟩ := dmarc
  simp only at h1 h2
  cases e1 <;> cases e2 <;> cases r1 <;> cases r2 <;>
    simp_all [classify_overall, Risk.max, Risk.rank]

/-- C9: every assessment produced by analyze_spf or analyze_dmarc has
exists false only together with policy none and risk High, and exists
true only with a non-none policy; consequently, on such producible
pairs, classify_overall returns exactly the maximum of the two risks
under Low < Medium < High, which subsumes its first (neither-exists)
rule. -/
theorem overall_risk_is_max (rs : List String) (env : DnsEnv) (domain : String) :
    ((analyze_spf rs).exists_ = false →
      (analyze_spf rs).policy = none ∧ (analyze_spf rs).risk = .high) ∧
    ((analyze_spf rs).exists_ = true → (analyze_spf rs).policy ≠ none) ∧
    ((analyze_dmarc env domain).exists_ = false →
      (analyze_dmarc env domain).policy = none ∧ (analyze_dmarc env domain).risk = .high) ∧
    ((analyze_dmarc env domain).exists_ = true → (analyze_dmarc env domain).policy ≠ none) ∧
    classify_overall (analyze_spf rs) (analyze_dmarc env domain)
      = Risk.max (analyze_spf rs).risk (analyze_dmarc env domain).risk := by
  rcases analyze_spf_res rs with hs | ⟨pol, rk, hs⟩ <;>
    rcases analyze_dmarc_res env domain with hd | ⟨pol2, rk2, hd⟩ <;>
    rw [hs, hd] <;>
    exact ⟨by simp, by simp, by simp, by simp,
      classify_overall_eq_max _ _ (by simp) (by simp)⟩

/-- Witness for C9: an SPF soft-fail record together with an absent
DMARC answer; the overall verdict is the maximum of Medium and High. -/
theorem overall_risk_is_max_witness :
    ((analyze_spf ["v=spf1 ~all"]).exists_ = false →
      (analyze_spf ["v=spf1 ~all"]).policy = none ∧
      (analyze_spf ["v=spf1 ~all"]).risk = .high) ∧
    ((analyze_spf ["v=spf1 ~all"]).exists_ = true →
      (analyze_spf ["v=spf1 ~all"]).policy ≠ none) ∧
    ((analyze_dmarc envNoRecords "example.com").exists_ = false →
      (analyze_dmarc envNoRecords "example.com").policy = none ∧
      (analyze_dmarc envNoRecords "example.com").risk = .high) ∧
    ((analyze_dmarc envNoRecords "example.com").exists_ = true →
      (analyze_dmarc envNoRecords "example.com").policy ≠ none) ∧
    classify_overall (analyze_spf ["v=spf1 ~all"]) (analyze_dmarc envNoRecords "example.com")
      = Risk.max (analyze_spf ["v=spf1 ~all"]).risk
          (analyze_dmarc envNoRecords "example.com").risk :=
  overall_risk_is_max ["v=spf1 ~all"] envNoRecords "example.com"
